import Mathlib

/-!
A shallow embedding of the statement-execution and result-fetch engine of a
Python database-cursor driver (`pdbc/trafodion/connector/cursor.py`), together
with proofs about its execute / fetchone / fetchmany / close operations.

The wire transport and the statement objects are external collaborators of the
cursor; they are represented by oracles: an execute call receives the reply the
transport would produce (a statement-type classification or a raised error) and
a fetch call consumes the next reply from a list of pending transport replies.
Raised Python exceptions are modelled with `Except`; the state returned next to
an `Except.error` is the state the mutations performed before the raise left
behind, exactly as in Python.
-/

namespace TrafPy

/-- A result row: the tuple of column values for one row.  A Python tuple is
falsy exactly when it is empty, which is what the `if row:` truthiness test in
`fetchmany` observes. -/
abbrev Row := List Int

/-- Modelled from the spec: the Transport collaborator's statement-type tag for
row-producing (SELECT) statements (`transport.py` is not under src/).  Only
equality tests against this tag occur, so its numeric value is opaque. -/
def Transport.TYPE_SELECT : Nat := 1

/-- Modelled from the spec: the classification a freshly constructed statement
carries before the server has classified it. -/
def Transport.TYPE_UNKNOWN : Nat := 0

/-- Modelled from the spec: the execute-mode tag for Direct execution. -/
def Transport.SRVR_API_SQLEXECDIRECT : Nat := 10

/-- Modelled from the spec: the execute-mode tag for Prepared execution. -/
def Transport.SRVR_API_SQLEXECUTE2 : Nat := 11

/-- The Python exceptions the cursor layer can raise or propagate. -/
inductive PyError
  | programmingError (msg : String)
  | internalError (msg : String)
  | interfaceError (msg : String)
  | indexError
  | attributeError
  | transportError (code : Nat)
  deriving DecidableEq, Repr

/-- The two statement variants dispatched by presence of parameters. -/
inductive StmtKind
  | direct
  | prepared
  deriving DecidableEq, Repr

/-- The active statement held by a cursor: its variant and the statement-type
classification `sql_stmt_type_` the transport assigned to it. -/
structure Stmt where
  kind : StmtKind
  sql_stmt_type_ : Nat
  deriving DecidableEq, Repr

/-- One transport fetch reply, with the fields `fetchone` reads from it:
`result_set`, `rows_fetched` and `end_of_data`. -/
structure FetchReply where
  result_set : List Row
  rows_fetched : Nat
  end_of_data : Bool
  deriving DecidableEq, Repr

/-- The mutable state of a `TrafCursor`.  `connection = true` stands for a
present (truthy) connection back-reference, `false` for `None`; the initial
Python value `_result_set = None` is represented by `[]`, which is
indistinguishable from it in every path the cursor code exercises before the
buffer is first filled (`next_row = row_cached = 0` keeps the cache-hit branch
unreachable until then). -/
structure CursorState where
  connection : Bool
  next_row : Nat
  st : Option Stmt
  execute_type : Nat
  result_set : List Row
  end_data : Bool
  row_cached : Nat
  executed : Option String
  arraysize : Nat
  deriving DecidableEq, Repr

/-- The state of a freshly constructed `TrafCursor`. -/
def initState (conn : Bool) : CursorState :=
  { connection := conn
    next_row := 0
    st := none
    execute_type := Transport.SRVR_API_SQLEXECDIRECT
    result_set := []
    end_data := false
    row_cached := 0
    executed := none
    arraysize := 1 }

/-- The transport calls the cursor can make, as observable events. -/
inductive TransportEvent
  | executeDirect (op : String)
  | executePrepared (op : String) (params : List Int)
  deriving DecidableEq, Repr

/-- Outcome of `TrafCursor.execute`: the raised-or-returned value, the cursor
state after the call, and the transport calls that were made. -/
structure ExecResult where
  out : Except PyError Unit
  s : CursorState
  events : List TransportEvent
  deriving Repr

/-- `TrafCursor.execute(operation, params, multi)`.  `resp` is the reply of the
transport entry point invoked through the statement object (modelled from the
spec, `statement.py` is not under src/): on success the server's statement-type
classification, otherwise the raised error, which the cursor propagates
unchanged (the `except InterfaceError: raise` clause re-raises as-is).  The
operation text is recorded after utf-8 encoding, which never fails for a valid
unicode string; the encoded bytes are represented by the string itself. -/
def execute (resp : Except PyError Nat) (s : CursorState) (operation : String)
    (params : Option (List Int)) (multi : Bool) : ExecResult :=
  if operation = "" then
    { out := Except.ok (), s := s, events := [] }
  else if s.connection = false then
    { out := Except.error (PyError.programmingError "Cursor is not connected")
      s := s, events := [] }
  else
    let s1 := { s with executed := some operation }
    let s2 :=
      if params.isSome then
        { s1 with execute_type := Transport.SRVR_API_SQLEXECUTE2
                  st := some ⟨StmtKind.prepared, Transport.TYPE_UNKNOWN⟩ }
      else
        { s1 with execute_type := Transport.SRVR_API_SQLEXECDIRECT
                  st := some ⟨StmtKind.direct, Transport.TYPE_UNKNOWN⟩ }
    let _ := multi
    let ev :=
      if s2.execute_type = Transport.SRVR_API_SQLEXECDIRECT then
        TransportEvent.executeDirect operation
      else
        TransportEvent.executePrepared operation (params.getD [])
    match resp with
    | Except.error e => { out := Except.error e, s := s2, events := [ev] }
    | Except.ok ty =>
        let kept := (s2.st.getD ⟨StmtKind.direct, Transport.TYPE_UNKNOWN⟩).kind
        { out := Except.ok ()
          s := { s2 with st := some ⟨kept, ty⟩, end_data := false }
          events := [ev] }

/-- Outcome of `TrafCursor.fetchone`: the raised-or-returned value (`none` is
Python's `None` sentinel), the cursor state after the call, the transport
replies not yet consumed, and how many transport fetch calls were made. -/
structure FetchOneResult where
  out : Except PyError (Option Row)
  s : CursorState
  oracle : List (Except PyError FetchReply)
  calls : Nat
  deriving Repr

/-- `TrafCursor.fetchone()`.  `oracle` is the list of replies the statement's
`fetch()` will produce, consumed from the front; an exhausted oracle stands for
a transport that cannot answer and is modelled as a raised transport error. -/
def fetchone (s : CursorState) (oracle : List (Except PyError FetchReply)) :
    FetchOneResult :=
  match s.st with
  | none => { out := Except.error PyError.attributeError, s := s, oracle := oracle, calls := 0 }
  | some st =>
    if st.sql_stmt_type_ ≠ Transport.TYPE_SELECT then
      { out := Except.error (PyError.internalError "No result set available.")
        s := s, oracle := oracle, calls := 0 }
    else if s.end_data then
      { out := Except.ok none, s := s, oracle := oracle, calls := 0 }
    else if s.next_row < s.row_cached then
      let s1 := { s with next_row := s.next_row + 1 }
      match s1.result_set.get? (s1.next_row - 1) with
      | some row => { out := Except.ok (some row), s := s1, oracle := oracle, calls := 0 }
      | none => { out := Except.error PyError.indexError, s := s1, oracle := oracle, calls := 0 }
    else
      match oracle with
      | [] =>
          { out := Except.error (PyError.transportError 0), s := s, oracle := [], calls := 1 }
      | Except.error e :: rest =>
          { out := Except.error e, s := s, oracle := rest, calls := 1 }
      | Except.ok reply :: rest =>
          let s1 := { s with result_set := reply.result_set, end_data := reply.end_of_data }
          if reply.end_of_data then
            { out := Except.ok none, s := s1, oracle := rest, calls := 1 }
          else
            let s2 := { s1 with row_cached := reply.rows_fetched, next_row := 1 }
            match s2.result_set.get? (s2.next_row - 1) with
            | some row => { out := Except.ok (some row), s := s2, oracle := rest, calls := 1 }
            | none => { out := Except.error PyError.indexError, s := s2, oracle := rest, calls := 1 }

/-- Outcome of `TrafCursor.fetchmany`. -/
structure FetchManyResult where
  out : Except PyError (List Row)
  s : CursorState
  oracle : List (Except PyError FetchReply)
  calls : Nat
  deriving Repr

/-- The `while cnt > 0` loop of `TrafCursor.fetchmany`: calls `fetchone` `cnt`
times, appending each truthy row (`if row:` — not `None` and not the empty
tuple) to the accumulator, and propagates any raised error together with the
state the loop left behind. -/
def fetchmanyLoop (cnt : Nat) (s : CursorState)
    (oracle : List (Except PyError FetchReply)) (calls : Nat) (acc : List Row) :
    FetchManyResult :=
  match cnt with
  | 0 => { out := Except.ok acc, s := s, oracle := oracle, calls := calls }
  | Nat.succ c =>
    let r := fetchone s oracle
    match r.out with
    | Except.error e =>
        { out := Except.error e, s := r.s, oracle := r.oracle, calls := calls + r.calls }
    | Except.ok rowOpt =>
        let acc1 :=
          match rowOpt with
          | some row => if row = [] then acc else acc ++ [row]
          | none => acc
        fetchmanyLoop c r.s r.oracle (calls + r.calls) acc1

/-- `TrafCursor.fetchmany(size)`.  `cnt = (size or self.arraysize)`: a falsy
`size` (zero) falls back to the cursor's `arraysize`. -/
def fetchmany (size : Nat) (s : CursorState)
    (oracle : List (Except PyError FetchReply)) : FetchManyResult :=
  match s.st with
  | none => { out := Except.error PyError.attributeError, s := s, oracle := oracle, calls := 0 }
  | some st =>
    if st.sql_stmt_type_ ≠ Transport.TYPE_SELECT then
      { out := Except.error (PyError.internalError "No result set available.")
        s := s, oracle := oracle, calls := 0 }
    else
      fetchmanyLoop (if size = 0 then s.arraysize else size) s oracle 0 []

/-- `TrafCursor.close()`: returns `False` and does nothing when the connection
reference is already gone, otherwise releases it and returns `True`. -/
def close (s : CursorState) : Bool × CursorState :=
  if s.connection = false then (false, s)
  else (true, { s with connection := false })

/-- `n` successive `fetchone()` calls: the list of their results, the final
state, the remaining transport replies and the total number of transport fetch
calls made. -/
def repFetchone (n : Nat) (s : CursorState)
    (oracle : List (Except PyError FetchReply)) :
    List (Except PyError (Option Row)) × CursorState ×
      List (Except PyError FetchReply) × Nat :=
  match n with
  | 0 => ([], s, oracle, 0)
  | Nat.succ m =>
    let r := fetchone s oracle
    let rest := repFetchone m r.s r.oracle
    (r.out :: rest.1, rest.2.1, rest.2.2.1, r.calls + rest.2.2.2)

/-- A fetch reply carrying the batch `b`: `rows_fetched` is its length and
end-of-data is not yet signalled. -/
def goodReply (b : List Row) : Except PyError FetchReply :=
  Except.ok ⟨b, b.length, false⟩

/-- The terminal fetch reply: no rows and end-of-data signalled. -/
def endReply : Except PyError FetchReply :=
  Except.ok ⟨[], 0, true⟩

/-- The reply sequence of a well-behaved transport for a result set delivered
as `batches`: one reply per batch, then the terminal reply. -/
def mkOracle (batches : List (List Row)) : List (Except PyError FetchReply) :=
  batches.map goodReply ++ [endReply]

/-- Well-formed batches: each batch is non-empty and each of its rows is a
non-empty tuple (so the truthiness test in fetchmany keeps it). -/
def BatchesWF (batches : List (List Row)) : Prop :=
  ∀ b ∈ batches, b ≠ [] ∧ ∀ r ∈ b, r ≠ []

/-- Buffer well-formedness of a cursor state: the read position is within the
cached count, the cached count matches the buffer length, and every row not
yet served is a non-empty tuple. -/
def StateWF (s : CursorState) : Prop :=
  s.next_row ≤ s.row_cached ∧ s.row_cached = s.result_set.length ∧
    ∀ r ∈ s.result_set.drop s.next_row, r ≠ []

/-- The number of rows remaining before end-of-data: unserved cached rows plus
all rows still held by the transport. -/
def remTotal (s : CursorState) (batches : List (List Row)) : Nat :=
  (s.row_cached - s.next_row) + (batches.map List.length).sum

/-- A fetch configuration with `n` remaining rows: either end-of-data has been
observed (nothing remains), or the pending replies form a well-behaved
transport sequence and the buffer is well-formed. -/
def ConfWF (s : CursorState) (oracle : List (Except PyError FetchReply)) (n : Nat) : Prop :=
  (s.end_data = true ∧ n = 0) ∨
    (s.end_data = false ∧ ∃ batches, oracle = mkOracle batches ∧ BatchesWF batches ∧
      StateWF s ∧ n = remTotal s batches)

/-- The length of a successfully returned row list, `none` on a raised error. -/
def okLen (e : Except PyError (List Row)) : Option Nat :=
  match e with
  | Except.ok l => some l.length
  | Except.error _ => none

/-- A cursor holding a statement that the server classified as non-SELECT. -/
def nonSelectCursor : CursorState :=
  { initState true with st := some ⟨StmtKind.direct, Transport.TYPE_UNKNOWN⟩ }

/-- A cursor that has consumed a two-row result set and observed end-of-data. -/
def exhaustedCursor : CursorState :=
  { connection := true
    next_row := 2
    st := some ⟨StmtKind.direct, Transport.TYPE_SELECT⟩
    execute_type := Transport.SRVR_API_SQLEXECDIRECT
    result_set := []
    end_data := true
    row_cached := 2
    executed := some "SELECT X"
    arraysize := 1 }

/-- A cursor immediately after a successful execute of a SELECT, before any
fetch: empty buffer, read position zero, end-of-data unset. -/
def freshSelectCursor : CursorState :=
  { connection := true
    next_row := 0
    st := some ⟨StmtKind.direct, Transport.TYPE_SELECT⟩
    execute_type := Transport.SRVR_API_SQLEXECDIRECT
    result_set := []
    end_data := false
    row_cached := 0
    executed := some "SELECT Y"
    arraysize := 1 }

/-- A cursor midway through a cached batch of three rows. -/
def midBatchCursor : CursorState :=
  { freshSelectCursor with result_set := [[10], [20], [30]], row_cached := 3, next_row := 1 }

/-- C3: for every non-empty operation text and every parameter value, execute()
on a cursor whose connection reference is absent raises the programming-error
kind "Cursor is not connected", leaves the state unchanged and makes no
transport call.  (The non-emptiness restriction is forced: an empty operation
returns None before the connection check, see the counterexample.) -/
theorem execute_no_connection (resp : Except PyError Nat) (s : CursorState)
    (op : String) (params : Option (List Int)) (multi : Bool)
    (hop : op ≠ "") (hconn : s.connection = false) :
    execute resp s op params multi =
      { out := Except.error (PyError.programmingError "Cursor is not connected")
        s := s
        events := [] } := by
  simp [execute, hop, hconn]

/-- C3 witness: the connection-less cursor with a concrete non-empty operation. -/
theorem execute_no_connection_witness :
    "SELECT 1" ≠ "" ∧
    execute (Except.ok 0) (initState false) "SELECT 1" none false =
      { out := Except.error (PyError.programmingError "Cursor is not connected")
        s := initState false
        events := [] } :=
  ⟨by decide,
   execute_no_connection (Except.ok 0) (initState false) "SELECT 1" none false
     (by decide) rfl⟩

/-- C3 counterexample: with the empty operation text — one of the operation
texts the claim quantifies over — execute() on a cursor with no connection
returns the None outcome instead of raising the programming-error kind, so the
claim as stated is false. -/
theorem execute_no_connection_counterexample :
    (initState false).connection = false ∧
    execute (Except.ok 0) (initState false) "" none false =
      { out := Except.ok (), s := initState false, events := [] } :=
  ⟨rfl, rfl⟩

/-- C8: close() is idempotent and never raises: with no connection reference it
returns false and changes nothing; with a bound connection it releases the
reference and returns true, and a second close() right after returns false. -/
theorem close_idempotent (s : CursorState) :
    (s.connection = false → close s = (false, s)) ∧
    (s.connection = true →
      close s = (true, { s with connection := false }) ∧
      (close { s with connection := false }).1 = false) := by
  refine ⟨fun h => ?_, fun h => ⟨?_, ?_⟩⟩ <;> simp [close, h]

/-- C8 witness: both branches at concrete cursors. -/
theorem close_idempotent_witness :
    close (initState false) = (false, initState false) ∧
    close (initState true) = (true, { initState true with connection := false }) ∧
    (close { initState true with connection := false }).1 = false :=
  ⟨(close_idempotent (initState false)).1 rfl,
   ((close_idempotent (initState true)).2 rfl).1,
   ((close_idempotent (initState true)).2 rfl).2⟩

/-- C6: on a cursor whose active statement's classification is not the
row-producing (SELECT) type, every fetchone() and every fetchmany() call raises
the internal-error kind "No result set available.", leaves the state unchanged,
makes no transport call and never returns a row. -/
theorem fetch_non_select (s : CursorState)
    (oracle : List (Except PyError FetchReply)) (size : Nat) (stmt : Stmt)
    (hst : s.st = some stmt)
    (hty : stmt.sql_stmt_type_ ≠ Transport.TYPE_SELECT) :
    fetchone s oracle =
      { out := Except.error (PyError.internalError "No result set available.")
        s := s, oracle := oracle, calls := 0 } ∧
    fetchmany size s oracle =
      { out := Except.error (PyError.internalError "No result set available.")
        s := s, oracle := oracle, calls := 0 } := by
  constructor
  · simp [fetchone, hst, hty]
  · simp [fetchmany, hst, hty]

/-- C6 witness: a concrete non-SELECT cursor. -/
theorem fetch_non_select_witness :
    Transport.TYPE_UNKNOWN ≠ Transport.TYPE_SELECT ∧
    fetchone nonSelectCursor [] =
      { out := Except.error (PyError.internalError "No result set available.")
        s := nonSelectCursor, oracle := [], calls := 0 } ∧
    fetchmany 2 nonSelectCursor [] =
      { out := Except.error (PyError.internalError "No result set available.")
        s := nonSelectCursor, oracle := [], calls := 0 } :=
  ⟨by decide,
   (fetch_non_select nonSelectCursor [] 2 ⟨StmtKind.direct, Transport.TYPE_UNKNOWN⟩
      rfl (by decide)).1,
   (fetch_non_select nonSelectCursor [] 2 ⟨StmtKind.direct, Transport.TYPE_UNKNOWN⟩
      rfl (by decide)).2⟩

/-- Shape of fetchone on an exhausted result set: immediate sentinel, no state
change, no transport call. -/
theorem fetchone_eod (s : CursorState) (oracle : List (Except PyError FetchReply))
    (stmt : Stmt) (hst : s.st = some stmt)
    (hty : stmt.sql_stmt_type_ = Transport.TYPE_SELECT) (hed : s.end_data = true) :
    fetchone s oracle = { out := Except.ok none, s := s, oracle := oracle, calls := 0 } := by
  simp [fetchone, hst, hty, hed]

/-- Any single fetchone performs at most one transport fetch. -/
theorem fetchone_calls_le_one (s : CursorState)
    (oracle : List (Except PyError FetchReply)) : (fetchone s oracle).calls ≤ 1 := by
  unfold fetchone
  repeat' split <;> try (first | decide | simp)

/-- C4: on a cursor whose end-of-data flag is set (for its active SELECT
statement), any number of successive fetchone() calls each return the None
sentinel, perform no transport fetch, and leave the cursor state and the
pending transport replies unchanged. -/
theorem fetchone_exhausted_stable (n : Nat) (s : CursorState)
    (oracle : List (Except PyError FetchReply)) (stmt : Stmt)
    (hst : s.st = some stmt) (hty : stmt.sql_stmt_type_ = Transport.TYPE_SELECT)
    (hed : s.end_data = true) :
    repFetchone n s oracle = (List.replicate n (Except.ok none), s, oracle, 0) := by
  induction n with
  | zero => simp [repFetchone]
  | succ m ih =>
      simp [repFetchone, fetchone_eod s oracle stmt hst hty hed, ih, List.replicate_succ]

/-- C4 witness: three repetitions on a concrete exhausted cursor, with a
pending transport reply that is never consumed. -/
theorem fetchone_exhausted_stable_witness :
    repFetchone 3 exhaustedCursor [Except.ok ⟨[[5]], 1, false⟩] =
      (List.replicate 3 (Except.ok none), exhaustedCursor,
        [Except.ok ⟨[[5]], 1, false⟩], 0) :=
  fetchone_exhausted_stable 3 exhaustedCursor [Except.ok ⟨[[5]], 1, false⟩]
    ⟨StmtKind.direct, Transport.TYPE_SELECT⟩ rfl rfl rfl

/-- C5: with end-of-data unset on a SELECT statement, (i) while the read cursor
is inside the cached batch, fetchone() advances it by one and returns the
cached row at the old position with no transport call; (ii) a transport fetch
happens only when the cached batch is exhausted; (iii) never more than one
transport fetch per call; (iv) after a successful refill carrying rows, the
read cursor restarts at the first row of the new batch, which is returned. -/
theorem fetchone_buffer_protocol (s : CursorState)
    (oracle : List (Except PyError FetchReply)) (stmt : Stmt)
    (hst : s.st = some stmt) (hty : stmt.sql_stmt_type_ = Transport.TYPE_SELECT)
    (hed : s.end_data = false) :
    (s.next_row < s.row_cached → s.next_row < s.result_set.length →
      fetchone s oracle =
        { out := Except.ok (s.result_set.get? s.next_row)
          s := { s with next_row := s.next_row + 1 }
          oracle := oracle
          calls := 0 }) ∧
    ((fetchone s oracle).calls ≠ 0 → s.row_cached ≤ s.next_row) ∧
    (fetchone s oracle).calls ≤ 1 ∧
    (∀ (r : Row) (b : List Row) (n : Nat) (rest : List (Except PyError FetchReply)),
      s.row_cached ≤ s.next_row →
      oracle = Except.ok ⟨r :: b, n, false⟩ :: rest →
      fetchone s oracle =
        { out := Except.ok (some r)
          s := { s with result_set := r :: b, end_data := false,
                        row_cached := n, next_row := 1 }
          oracle := rest
          calls := 1 }) := by
  refine ⟨fun hlt hlen => ?_, fun hcalls => ?_, fetchone_calls_le_one s oracle,
    fun r b n rest hge horacle => ?_⟩
  · have hget : s.result_set[s.next_row]? = some s.result_set[s.next_row] :=
      List.getElem?_eq_getElem hlen
    simp [fetchone, hst, hty, hed, hlt, hget]
  · by_contra hnot
    have hlt : s.next_row < s.row_cached := Nat.lt_of_not_le hnot
    have : (fetchone s oracle).calls = 0 := by
      simp only [fetchone, hst, hty, hed]
      simp only [Transport.TYPE_SELECT]
      simp [hlt]
      split <;> rfl
    exact hcalls this
  · have hnlt : ¬ s.next_row < s.row_cached := Nat.not_lt.mpr hge
    simp [fetchone, hst, hty, hed, hnlt, horacle]

/-- C5 witness: the cache-hit case on a concrete mid-batch cursor and the
refill case on a concrete fresh cursor. -/
theorem fetchone_buffer_protocol_witness :
    fetchone midBatchCursor [] =
      { out := Except.ok (some [20])
        s := { midBatchCursor with next_row := 2 }
        oracle := []
        calls := 0 } ∧
    fetchone freshSelectCursor [Except.ok ⟨[[7], [8]], 2, false⟩] =
      { out := Except.ok (some [7])
        s := { freshSelectCursor with result_set := [[7], [8]], end_data := false,
                                      row_cached := 2, next_row := 1 }
        oracle := []
        calls := 1 } := by
  constructor
  · have h := (fetchone_buffer_protocol midBatchCursor []
      ⟨StmtKind.direct, Transport.TYPE_SELECT⟩ rfl rfl rfl).1 (by decide) (by decide)
    simpa using h
  · exact (fetchone_buffer_protocol freshSelectCursor [Except.ok ⟨[[7], [8]], 2, false⟩]
      ⟨StmtKind.direct, Transport.TYPE_SELECT⟩ rfl rfl rfl).2.2.2
      [7] [[8]] 2 [] (by decide) rfl

/-- C10: a transport reply with end-of-data false and zero rows drives the
refill path of fetchone() out of bounds: the row-list index access fails (a
raised IndexError) after the read position was already set to 1 and the cached
count to 0, leaving a state that violates the buffer invariant
next_row ≤ row_cached. -/
theorem fetchone_zero_row_refill (s : CursorState)
    (rest : List (Except PyError FetchReply)) (stmt : Stmt)
    (hst : s.st = some stmt) (hty : stmt.sql_stmt_type_ = Transport.TYPE_SELECT)
    (hed : s.end_data = false) (hge : s.row_cached ≤ s.next_row) :
    fetchone s (Except.ok ⟨[], 0, false⟩ :: rest) =
      { out := Except.error PyError.indexError
        s := { s with result_set := [], end_data := false, row_cached := 0, next_row := 1 }
        oracle := rest
        calls := 1 } ∧
    ¬ ((fetchone s (Except.ok ⟨[], 0, false⟩ :: rest)).s.next_row ≤
        (fetchone s (Except.ok ⟨[], 0, false⟩ :: rest)).s.row_cached) := by
  have hnlt : ¬ s.next_row < s.row_cached := Nat.not_lt.mpr hge
  have h1 : fetchone s (Except.ok ⟨[], 0, false⟩ :: rest) =
      { out := Except.error PyError.indexError
        s := { s with result_set := [], end_data := false, row_cached := 0, next_row := 1 }
        oracle := rest
        calls := 1 } := by
    simp [fetchone, hst, hty, hed, hnlt]
  refine ⟨h1, ?_⟩
  rw [h1]
  simp

/-- C10 witness: the zero-row non-final reply on a concrete drained cursor. -/
theorem fetchone_zero_row_refill_witness :
    fetchone freshSelectCursor [Except.ok ⟨[], 0, false⟩] =
      { out := Except.error PyError.indexError
        s := { freshSelectCursor with result_set := [], end_data := false,
                                      row_cached := 0, next_row := 1 }
        oracle := []
        calls := 1 } ∧
    ¬ ((fetchone freshSelectCursor [Except.ok ⟨[], 0, false⟩]).s.next_row ≤
        (fetchone freshSelectCursor [Except.ok ⟨[], 0, false⟩]).s.row_cached) :=
  fetchone_zero_row_refill freshSelectCursor []
    ⟨StmtKind.direct, Transport.TYPE_SELECT⟩ rfl rfl rfl (by decide)

/-- C1 (amended): a successful execute() resets the end-of-data flag to false,
but it does not discard the previously buffered rows, the cached-row count or
the read position (the buffer reset in the source is commented out), so those
three fields keep their pre-execute values. -/
theorem execute_resets_end_data_only (respTy : Nat) (s : CursorState) (op : String)
    (params : Option (List Int)) (multi : Bool)
    (hop : op ≠ "") (hconn : s.connection = true) :
    (execute (Except.ok respTy) s op params multi).out = Except.ok () ∧
    (execute (Except.ok respTy) s op params multi).s.end_data = false ∧
    (execute (Except.ok respTy) s op params multi).s.next_row = s.next_row ∧
    (execute (Except.ok respTy) s op params multi).s.row_cached = s.row_cached ∧
    (execute (Except.ok respTy) s op params multi).s.result_set = s.result_set := by
  rcases params with _ | ps <;> simp [execute, hop, hconn]

/-- C1 witness: executing over a cursor that still holds three cached rows with
read position 1. -/
theorem execute_resets_end_data_only_witness :
    "SELECT Z" ≠ "" ∧
    (execute (Except.ok Transport.TYPE_SELECT) midBatchCursor "SELECT Z" none false).out
      = Except.ok () ∧
    (execute (Except.ok Transport.TYPE_SELECT) midBatchCursor "SELECT Z" none false).s.end_data
      = false ∧
    (execute (Except.ok Transport.TYPE_SELECT) midBatchCursor "SELECT Z" none false).s.next_row
      = midBatchCursor.next_row ∧
    (execute (Except.ok Transport.TYPE_SELECT) midBatchCursor "SELECT Z" none false).s.row_cached
      = midBatchCursor.row_cached ∧
    (execute (Except.ok Transport.TYPE_SELECT) midBatchCursor "SELECT Z" none false).s.result_set
      = midBatchCursor.result_set :=
  ⟨by decide,
   (execute_resets_end_data_only Transport.TYPE_SELECT midBatchCursor "SELECT Z" none false
      (by decide) rfl).1,
   (execute_resets_end_data_only Transport.TYPE_SELECT midBatchCursor "SELECT Z" none false
      (by decide) rfl).2.1,
   (execute_resets_end_data_only Transport.TYPE_SELECT midBatchCursor "SELECT Z" none false
      (by decide) rfl).2.2.1,
   (execute_resets_end_data_only Transport.TYPE_SELECT midBatchCursor "SELECT Z" none false
      (by decide) rfl).2.2.2.1,
   (execute_resets_end_data_only Transport.TYPE_SELECT midBatchCursor "SELECT Z" none false
      (by decide) rfl).2.2.2.2⟩

/-- C1 counterexample: a cursor whose prior execution cached three rows and
served one; a successful execute() of a new statement followed by fetchone()
serves row [20] — a row cached by the prior execution — with no transport
call, so the claim that no such row can ever be served is false. -/
theorem execute_stale_row_counterexample :
    (execute (Except.ok Transport.TYPE_SELECT) midBatchCursor "SELECT Z" none false).out
      = Except.ok () ∧
    (fetchone (execute (Except.ok Transport.TYPE_SELECT) midBatchCursor
        "SELECT Z" none false).s []).out = Except.ok (some [20]) ∧
    [20] ∈ midBatchCursor.result_set ∧
    (fetchone (execute (Except.ok Transport.TYPE_SELECT) midBatchCursor
        "SELECT Z" none false).s []).calls = 0 :=
  ⟨rfl, rfl, by decide, rfl⟩

/-- C7: for a non-empty operation on a connected cursor, supplying a non-null
parameters value selects Prepared mode: the Prepared execute-mode tag is
recorded, a Prepared statement is constructed, and the transport entry point
receiving text and parameters together is invoked; omitting parameters selects
Direct mode: the Direct tag, a Direct statement, and the text-only transport
entry point. -/
theorem execute_mode_selection (resp : Except PyError Nat) (s : CursorState)
    (op : String) (params : Option (List Int)) (multi : Bool)
    (hop : op ≠ "") (hconn : s.connection = true) :
    (params = none →
      (execute resp s op params multi).s.execute_type = Transport.SRVR_API_SQLEXECDIRECT ∧
      ((execute resp s op params multi).s.st).map Stmt.kind = some StmtKind.direct ∧
      (execute resp s op params multi).events = [TransportEvent.executeDirect op]) ∧
    (∀ ps : List Int, params = some ps →
      (execute resp s op params multi).s.execute_type = Transport.SRVR_API_SQLEXECUTE2 ∧
      ((execute resp s op params multi).s.st).map Stmt.kind = some StmtKind.prepared ∧
      (execute resp s op params multi).events = [TransportEvent.executePrepared op ps]) := by
  constructor
  · rintro rfl
    rcases resp with e | ty <;>
      simp [execute, hop, hconn, Transport.SRVR_API_SQLEXECDIRECT, Transport.SRVR_API_SQLEXECUTE2]
  · rintro ps rfl
    rcases resp with e | ty <;>
      simp [execute, hop, hconn, Transport.SRVR_API_SQLEXECDIRECT, Transport.SRVR_API_SQLEXECUTE2]

/-- C7 witness: both modes at concrete inputs. -/
theorem execute_mode_selection_witness :
    ((execute (Except.ok Transport.TYPE_SELECT) (initState true) "SELECT 1" none false).s.execute_type
        = Transport.SRVR_API_SQLEXECDIRECT ∧
      ((execute (Except.ok Transport.TYPE_SELECT) (initState true) "SELECT 1" none false).s.st).map
          Stmt.kind = some StmtKind.direct ∧
      (execute (Except.ok Transport.TYPE_SELECT) (initState true) "SELECT 1" none false).events
        = [TransportEvent.executeDirect "SELECT 1"]) ∧
    ((execute (Except.ok Transport.TYPE_SELECT) (initState true) "SELECT 1" (some [5]) false).s.execute_type
        = Transport.SRVR_API_SQLEXECUTE2 ∧
      ((execute (Except.ok Transport.TYPE_SELECT) (initState true) "SELECT 1" (some [5]) false).s.st).map
          Stmt.kind = some StmtKind.prepared ∧
      (execute (Except.ok Transport.TYPE_SELECT) (initState true) "SELECT 1" (some [5]) false).events
        = [TransportEvent.executePrepared "SELECT 1" [5]]) :=
  ⟨(execute_mode_selection (Except.ok Transport.TYPE_SELECT) (initState true) "SELECT 1"
      none false (by decide) rfl).1 rfl,
   (execute_mode_selection (Except.ok Transport.TYPE_SELECT) (initState true) "SELECT 1"
      (some [5]) false (by decide) rfl).2 [5] rfl⟩

/-- C9 (amended): when the transport raises during fetchone(), the cursor state
is fully unchanged and the error propagates; when it raises during execute(),
the result buffer, cached-row count, read position and end-of-data flag are
unchanged, but the active statement, execute-mode tag and last-executed text
have already been updated before the transport call. -/
theorem transport_error_state (e : PyError) :
    (∀ (s : CursorState) (op : String) (params : Option (List Int)) (multi : Bool),
      op ≠ "" → s.connection = true →
      (execute (Except.error e) s op params multi).out = Except.error e ∧
      (execute (Except.error e) s op params multi).s.result_set = s.result_set ∧
      (execute (Except.error e) s op params multi).s.row_cached = s.row_cached ∧
      (execute (Except.error e) s op params multi).s.next_row = s.next_row ∧
      (execute (Except.error e) s op params multi).s.end_data = s.end_data ∧
      (execute (Except.error e) s op params multi).s.executed = some op) ∧
    (∀ (s : CursorState) (rest : List (Except PyError FetchReply)) (stmt : Stmt),
      s.st = some stmt → stmt.sql_stmt_type_ = Transport.TYPE_SELECT →
      s.end_data = false → s.row_cached ≤ s.next_row →
      fetchone s (Except.error e :: rest) =
        { out := Except.error e, s := s, oracle := rest, calls := 1 }) := by
  constructor
  · intro s op params multi hop hconn
    rcases params with _ | ps <;> simp [execute, hop, hconn]
  · intro s rest stmt hst hty hed hge
    have hnlt : ¬ s.next_row < s.row_cached := Nat.not_lt.mpr hge
    simp [fetchone, hst, hty, hed, hnlt]

/-- C9 witness: the execute branch and the fetchone branch at concrete inputs. -/
theorem transport_error_state_witness :
    ((execute (Except.error (PyError.transportError 7)) freshSelectCursor
        "INSERT INTO T" (some [1]) false).out = Except.error (PyError.transportError 7) ∧
      (execute (Except.error (PyError.transportError 7)) freshSelectCursor
        "INSERT INTO T" (some [1]) false).s.result_set = freshSelectCursor.result_set ∧
      (execute (Except.error (PyError.transportError 7)) freshSelectCursor
        "INSERT INTO T" (some [1]) false).s.row_cached = freshSelectCursor.row_cached ∧
      (execute (Except.error (PyError.transportError 7)) freshSelectCursor
        "INSERT INTO T" (some [1]) false).s.next_row = freshSelectCursor.next_row ∧
      (execute (Except.error (PyError.transportError 7)) freshSelectCursor
        "INSERT INTO T" (some [1]) false).s.end_data = freshSelectCursor.end_data ∧
      (execute (Except.error (PyError.transportError 7)) freshSelectCursor
        "INSERT INTO T" (some [1]) false).s.executed = some "INSERT INTO T") ∧
    fetchone freshSelectCursor [Except.error (PyError.transportError 7)] =
      { out := Except.error (PyError.transportError 7)
        s := freshSelectCursor, oracle := [], calls := 1 } :=
  ⟨(transport_error_state (PyError.transportError 7)).1 freshSelectCursor
      "INSERT INTO T" (some [1]) false (by decide) rfl,
   (transport_error_state (PyError.transportError 7)).2 freshSelectCursor []
      ⟨StmtKind.direct, Transport.TYPE_SELECT⟩ rfl rfl rfl (by decide)⟩

/-- C9 counterexample: a transport error during execute() does not leave the
last-executed text and the execute-mode tag at their prior values — both have
already been overwritten when the error propagates, so the claim that they
hold the same values after the failed call is false. -/
theorem transport_error_counterexample :
    (execute (Except.error (PyError.transportError 7)) freshSelectCursor
        "INSERT INTO T" (some [1]) false).out = Except.error (PyError.transportError 7) ∧
    freshSelectCursor.executed = some "SELECT Y" ∧
    (execute (Except.error (PyError.transportError 7)) freshSelectCursor
        "INSERT INTO T" (some [1]) false).s.executed = some "INSERT INTO T" ∧
    some "INSERT INTO T" ≠ some "SELECT Y" ∧
    freshSelectCursor.execute_type = Transport.SRVR_API_SQLEXECDIRECT ∧
    (execute (Except.error (PyError.transportError 7)) freshSelectCursor
        "INSERT INTO T" (some [1]) false).s.execute_type = Transport.SRVR_API_SQLEXECUTE2 ∧
    Transport.SRVR_API_SQLEXECUTE2 ≠ Transport.SRVR_API_SQLEXECDIRECT :=
  ⟨rfl, rfl, rfl, by decide, rfl, rfl, by decide⟩

/-- Shape of fetchone when the buffer is exhausted and the transport signals
end-of-data: sentinel returned, flag set, buffer replaced by the empty reply
payload while the counters stay put. -/
theorem fetchone_end_reply (s : CursorState) (rest : List (Except PyError FetchReply))
    (stmt : Stmt) (hst : s.st = some stmt)
    (hty : stmt.sql_stmt_type_ = Transport.TYPE_SELECT)
    (hed : s.end_data = false) (hge : s.row_cached ≤ s.next_row) :
    fetchone s (endReply :: rest) =
      { out := Except.ok none
        s := { s with result_set := [], end_data := true }
        oracle := rest
        calls := 1 } := by
  have hnlt : ¬ s.next_row < s.row_cached := Nat.not_lt.mpr hge
  simp [fetchone, hst, hty, hed, hnlt, endReply]

/-- One fetchone step on a well-formed configuration: the statement survives,
and either nothing remained (the sentinel comes back, still a well-formed
configuration with nothing remaining) or the next remaining row — a non-empty
tuple — is produced and the remaining count drops by one. -/
theorem fetchone_conf_step (s : CursorState) (oracle : List (Except PyError FetchReply))
    (n : Nat) (stmt : Stmt) (hst : s.st = some stmt)
    (hty : stmt.sql_stmt_type_ = Transport.TYPE_SELECT)
    (hc : ConfWF s oracle n) :
    (fetchone s oracle).s.st = some stmt ∧
    ((n = 0 ∧ (fetchone s oracle).out = Except.ok none ∧
        ConfWF (fetchone s oracle).s (fetchone s oracle).oracle 0) ∨
      (∃ m row, n = m + 1 ∧ row ≠ ([] : Row) ∧
        (fetchone s oracle).out = Except.ok (some row) ∧
        ConfWF (fetchone s oracle).s (fetchone s oracle).oracle m)) := by
  rcases hc with ⟨hed, hn⟩ | ⟨hed, batches, ho, hbwf, hswf, hn⟩
  · rw [fetchone_eod s oracle stmt hst hty hed]
    exact ⟨hst, Or.inl ⟨hn, rfl, Or.inl ⟨hed, rfl⟩⟩⟩
  · obtain ⟨hle, hlen, hrows⟩ := hswf
    by_cases hlt : s.next_row < s.row_cached
    · have hlen' : s.next_row < s.result_set.length := hlen ▸ hlt
      have hkey := (fetchone_buffer_protocol s oracle stmt hst hty hed).1 hlt hlen'
      have hdropeq : s.result_set.drop s.next_row
          = s.result_set[s.next_row] :: s.result_set.drop (s.next_row + 1) :=
        List.drop_eq_getElem_cons hlen'
      have hmem : s.result_set[s.next_row] ∈ s.result_set.drop s.next_row := by
        rw [hdropeq]; exact List.mem_cons_self _ _
      have hgete : s.result_set[s.next_row]? = some s.result_set[s.next_row] :=
        List.getElem?_eq_getElem hlen'
      rw [hkey]
      refine ⟨hst, Or.inr ⟨n - 1, s.result_set[s.next_row], ?_, hrows _ hmem, ?_, ?_⟩⟩
      · simp only [remTotal] at hn; omega
      · simp [List.get?_eq_getElem?, hgete]
      · refine Or.inr ⟨hed, batches, ho, hbwf, ⟨?_, ?_, ?_⟩, ?_⟩
        · show s.next_row + 1 ≤ s.row_cached
          omega
        · show s.row_cached = s.result_set.length
          exact hlen
        · intro r hr
          refine hrows r ?_
          rw [hdropeq]
          exact List.mem_cons_of_mem _ hr
        · show n - 1 = (s.row_cached - (s.next_row + 1)) + (batches.map List.length).sum
          simp only [remTotal] at hn
          omega
    · have hge : s.row_cached ≤ s.next_row := Nat.not_lt.mp hlt
      rcases batches with _ | ⟨b, bs⟩
      · have hn0 : n = 0 := by
          simp only [remTotal, List.map_nil, List.sum_nil] at hn
          omega
        have ho' : oracle = endReply :: [] := by rw [ho]; rfl
        rw [ho', fetchone_end_reply s [] stmt hst hty hed hge]
        exact ⟨hst, Or.inl ⟨hn0, rfl, Or.inl ⟨rfl, rfl⟩⟩⟩
      · obtain ⟨hbne, hball⟩ := hbwf b (List.mem_cons_self _ _)
        obtain ⟨r, brest, rfl⟩ := List.exists_cons_of_ne_nil hbne
        have ho' : oracle = Except.ok ⟨r :: brest, (r :: brest).length, false⟩ :: mkOracle bs := by
          rw [ho]; rfl
        have hkey := (fetchone_buffer_protocol s oracle stmt hst hty hed).2.2.2
          r brest (r :: brest).length (mkOracle bs) hge ho'
        rw [hkey]
        refine ⟨hst, Or.inr ⟨brest.length + (bs.map List.length).sum, r, ?_,
          hball r (List.mem_cons_self _ _), rfl, ?_⟩⟩
        · simp only [remTotal, List.map_cons, List.sum_cons, List.length_cons] at hn
          omega
        · refine Or.inr ⟨rfl, bs, rfl, fun b' hb' => hbwf b' (List.mem_cons_of_mem _ hb'),
            ⟨?_, rfl, ?_⟩, ?_⟩
          · show 1 ≤ (r :: brest).length
            simp
          · intro r' hr'
            exact hball r' (List.mem_cons_of_mem _ hr')
          · show brest.length + (bs.map List.length).sum
              = ((r :: brest).length - 1) + (bs.map List.length).sum
            simp

/-- The fetchmany loop on a well-formed configuration with `n` remaining rows
appends exactly `min cnt n` rows to the accumulator and never raises. -/
theorem fetchmanyLoop_min_length :
    ∀ (cnt : Nat) (s : CursorState) (oracle : List (Except PyError FetchReply))
      (n : Nat) (stmt : Stmt) (calls : Nat) (acc : List Row),
      s.st = some stmt → stmt.sql_stmt_type_ = Transport.TYPE_SELECT →
      ConfWF s oracle n →
      ∃ rows, (fetchmanyLoop cnt s oracle calls acc).out = Except.ok (acc ++ rows) ∧
        rows.length = min cnt n := by
  intro cnt
  induction cnt with
  | zero =>
      intro s oracle n stmt calls acc hst hty hc
      exact ⟨[], by simp [fetchmanyLoop], by simp⟩
  | succ c ih =>
      intro s oracle n stmt calls acc hst hty hc
      obtain ⟨hst', hcase⟩ := fetchone_conf_step s oracle n stmt hst hty hc
      rcases hcase with ⟨hn0, hout, hconf⟩ | ⟨m, row, hnm, hrow, hout, hconf⟩
      · obtain ⟨rows, hloop, hlenr⟩ := ih (fetchone s oracle).s (fetchone s oracle).oracle 0
          stmt (calls + (fetchone s oracle).calls) acc hst' hty hconf
        refine ⟨rows, ?_, ?_⟩
        · simp only [fetchmanyLoop]
          rw [hout]
          exact hloop
        · subst hn0
          simp at hlenr
          simp [hlenr]
      · obtain ⟨rows, hloop, hlenr⟩ := ih (fetchone s oracle).s (fetchone s oracle).oracle m
          stmt (calls + (fetchone s oracle).calls) (acc ++ [row]) hst' hty hconf
        refine ⟨row :: rows, ?_, ?_⟩
        · simp only [fetchmanyLoop]
          rw [hout]
          simp only [if_neg hrow]
          rw [hloop]
          simp
        · subst hnm
          simp [hlenr, Nat.succ_min_succ]

/-- C2 (amended): for every size ≥ 1, fetchmany(size) on a row-producing
statement over a well-formed configuration returns, without raising, a row
sequence whose length is the minimum of size and the number of rows remaining
before end-of-data. -/
theorem fetchmany_min_length (size : Nat) (s : CursorState)
    (oracle : List (Except PyError FetchReply)) (n : Nat) (stmt : Stmt)
    (hst : s.st = some stmt) (hty : stmt.sql_stmt_type_ = Transport.TYPE_SELECT)
    (hsize : 1 ≤ size) (hc : ConfWF s oracle n) :
    okLen (fetchmany size s oracle).out = some (min size n) := by
  obtain ⟨rows, hloop, hlenr⟩ :=
    fetchmanyLoop_min_length size s oracle n stmt 0 [] hst hty hc
  have hne : ¬ size = 0 := by omega
  simp only [fetchmany, hst, hty]
  simp only [Transport.TYPE_SELECT]
  simp [hne, hloop, okLen, hlenr]

/-- C2 witness: size 3 against a fresh cursor whose transport holds a single
two-row batch — two rows come back. -/
theorem fetchmany_min_length_witness :
    okLen (fetchmany 3 freshSelectCursor (mkOracle [[[1], [2]]])).out = some (min 3 2) :=
  fetchmany_min_length 3 freshSelectCursor (mkOracle [[[1], [2]]]) 2
    ⟨StmtKind.direct, Transport.TYPE_SELECT⟩ rfl rfl (by decide)
    (Or.inr ⟨rfl, [[[1], [2]]], rfl, by unfold BatchesWF; decide,
      by unfold StateWF; decide, by decide⟩)

/-- C2 counterexample: with size 0 on a well-formed configuration holding two
remaining rows, fetchmany falls back to the cursor's arraysize (one) and
returns one row, not min 0 2 = 0 rows, so the claim quantified over all
size ≥ 0 is false. -/
theorem fetchmany_size_zero_counterexample :
    ConfWF midBatchCursor (mkOracle []) 2 ∧
    okLen (fetchmany 0 midBatchCursor (mkOracle [])).out = some 1 ∧
    min 0 2 = 0 ∧ (1 : Nat) ≠ 0 :=
  ⟨Or.inr ⟨rfl, [], rfl, by unfold BatchesWF; decide, by unfold StateWF; decide,
    by decide⟩, rfl, rfl, by decide⟩

end TrafPy
